import Mathlib

/-!
Verification development for the Image-Constructor repository.

The interactive canvas core (src/components/MainCanvas.tsx) and the
top-level application handlers (App component) are shallowly embedded
here.  Pixel and container coordinates are modelled as rational numbers;
machine floating point is replaced by exact rational arithmetic.  Mask
images are modelled as boolean coverage predicates over integer pixel
positions (masks are assumed to have binary alpha).
-/

namespace ImageConstructor

/-- A planar point with rational coordinates (container or client pixels,
or a normalized coordinate pair). -/
structure Pt where
  x : ℚ
  y : ℚ
deriving DecidableEq, Repr

/-- The rendered-image geometry record of MainCanvas.tsx
(`renderedImageGeom`): the letterboxed rectangle of the image inside its
container. -/
structure Geom where
  x : ℚ
  y : ℚ
  width : ℚ
  height : ℚ
deriving DecidableEq, Repr

/-- Initial value of the `renderedImageGeom` React state
(MainCanvas.tsx line 56): `{ x: 0, y: 0, width: 1, height: 1 }`. -/
def initialRenderedImageGeom : Geom := ⟨0, 0, 1, 1⟩

/-- `getRelativeCoords` (MainCanvas.tsx lines 163-182), for the case in
which the canvas element exists.  `rect` is the top-left corner of the
canvas bounding rectangle in client pixels, `off` the pan offset
(`canvasOffset`), `client` the pointer position in client pixels.
The source computes
`mouseX = e.clientX - canvasRect.left`,
`preTransformX = (mouseX - canvasOffset.x) / zoom`,
`imageX = preTransformX - renderedImageGeom.x`,
then either clamps `imageX` into `[0, geom.width]` (when some axis is out
of bounds) or uses it directly, and finally divides by the geometry size. -/
def getRelativeCoords (rect off : Pt) (zoom : ℚ) (g : Geom) (client : Pt) : Pt :=
  let imageX := (client.x - rect.x - off.x) / zoom - g.x
  let imageY := (client.y - rect.y - off.y) / zoom - g.y
  if imageX < 0 ∨ imageX > g.width ∨ imageY < 0 ∨ imageY > g.height then
    ⟨max 0 (min imageX g.width) / g.width, max 0 (min imageY g.height) / g.height⟩
  else
    ⟨imageX / g.width, imageY / g.height⟩

/-- `getRelativeCoords` including its first guard
(`if (!canvasRef.current) return null`): the result is `none` exactly
when the canvas element is absent. -/
def getRelativeCoordsOpt (rect : Option Pt) (off : Pt) (zoom : ℚ) (g : Geom)
    (client : Pt) : Option Pt :=
  match rect with
  | none => none
  | some r => some (getRelativeCoords r off zoom g client)

/-- The pan-offset update of `handleWheel` (MainCanvas.tsx lines 269-270):
`newOffset = mouse - (newZoom / oldZoom) * (mouse - oldOffset)`, where
`mouse` is the container-relative wheel position.  `handleZoomIn` and
`handleZoomOut` (App component) use the same formula at the container
center. -/
def wheelNewOffset (mouse off : Pt) (oldZoom newZoom : ℚ) : Pt :=
  ⟨mouse.x - (newZoom / oldZoom) * (mouse.x - off.x),
   mouse.y - (newZoom / oldZoom) * (mouse.y - off.y)⟩

/-- Clamp a rational to the unit interval. -/
def clamp01 (v : ℚ) : ℚ := max 0 (min v 1)

/-! ## Hit-map rasterizer (MainCanvas.tsx lines 84-116) -/

/-- A segmentation mask, modelled as its coverage predicate over integer
pixel positions (non-zero alpha at that pixel). -/
def Mask : Type := Nat × Nat → Bool

/-- A hit-map raster buffer: the blue-channel value stored at each pixel
(0 encodes "no mask"). -/
def HitBuf : Type := Nat × Nat → Nat

/-- The `onload` handler that the hit-map build effect installs for the
mask at position `index` (MainCanvas.tsx lines 105-113).  The handler
(1) fills the WHOLE canvas with `rgb(0, 0, index + 1)` (`fillRect` over
`0, 0, hitCanvas.width, hitCanvas.height`), then
(2) draws the mask image with `globalCompositeOperation =
'destination-in'`, which keeps the just-painted canvas content only where
the mask has non-zero alpha and makes every other pixel fully
transparent (blue channel reads back 0).
Consequently the buffer contents present before this handler ran do not
survive it: the result does not depend on `buf` at all. -/
def maskOnload (index : Nat) (mask : Mask) (_buf : HitBuf) : HitBuf :=
  fun p => if mask p then index + 1 else 0

/-- The hit-map raster after the build effect has run and every mask
`onload` handler has fired, in list order (the effect clears the canvas
first, line 100, so the initial buffer is 0 everywhere). -/
def buildHitMap (masks : List Mask) : HitBuf :=
  masks.enum.foldl (fun buf im => maskOnload im.1 im.2 buf) (fun _ => 0)

/-- The hit-map encoding as claim C1 states it: pixel value is
`index + 1` for the LAST mask in list order covering the pixel, and 0 if
no mask covers it (later masks overwrite earlier ones only at the pixels
they cover). -/
def claimedHitMap (masks : List Mask) : HitBuf :=
  masks.enum.foldl (fun buf im => fun p => if im.2 p then im.1 + 1 else buf p)
    (fun _ => 0)

/-- `getLabelFromHitMap` (MainCanvas.tsx lines 65-82): floor the
normalized coordinate into raster pixels, read the blue channel (a read
outside the canvas yields a transparent pixel, i.e. 0), decode
`index = blue - 1`, and return the label at that index if it is in
range. -/
def getLabelFromHitMap (buf : HitBuf) (w h : Nat) (labels : List String)
    (c : Pt) : Option String :=
  let xi : Int := Int.floor (c.x * w)
  let yi : Int := Int.floor (c.y * h)
  let blue : Nat :=
    if 0 ≤ xi ∧ xi < w ∧ 0 ≤ yi ∧ yi < h then buf (xi.toNat, yi.toNat) else 0
  let index : Int := (blue : Int) - 1
  if 0 ≤ index ∧ index < labels.length then labels[index.toNat]? else none

/-- Concrete mask covering exactly pixel (0,0). -/
def maskA : Mask := fun p => p = (0, 0)

/-- Concrete mask covering exactly pixel (1,0). -/
def maskB : Mask := fun p => p = (1, 0)

/-! ## Generation requests (App component, src/unnamed/part_004) -/

/-- `Promise.all` over already-settled outcomes: fulfills with the list of
values when every call succeeded, and rejects with the error of the
leftmost failed call otherwise (with `Promise.all`, any rejection rejects
the whole batch). -/
def promiseAll {ε α : Type} : List (Except ε α) → Except ε (List α)
  | [] => Except.ok []
  | Except.error e :: _ => Except.error e
  | Except.ok a :: xs => (promiseAll xs).map (a :: ·)

/-- The result-collection step shared by `handleAssetGeneration` (lines
322-334 of the App component), `handleMarkerGeneration` and
`handleSceneGeneration`:
`const results = await Promise.all(promises)` followed by
`results.flat()`, the `successfulResults.length === 0` check, and the
surrounding `catch` which stores the thrown message in the `error` state
(the generated-results state was cleared to `[]` before the `try`).
The value returned is the pair (surfaced error message, list of results
shown). -/
def handleGenerationResults {α : Type} (calls : List (Except String (List α))) :
    Option String × List α :=
  match promiseAll calls with
  | Except.ok results =>
    let successfulResults := results.flatten
    if successfulResults.isEmpty then
      (some "Generation failed. The model could not produce a valid result.", [])
    else
      (none, successfulResults)
  | Except.error e => (some e, [])

/-! ## Retry helper (src/unnamed/part_000, `callWithRetry`, lines 16-36) -/

def MAX_RETRIES : Nat := 3

/-- The failure thrown after the retry loop exhausts all attempts
(line 35 of the service module). -/
def retryFailureMessage (lastError : Option String) : String :=
  "Failed after " ++ toString MAX_RETRIES ++ " attempts. Last error: "
    ++ lastError.getD "Unknown error"

/-- The body of `callWithRetry`: `attempt` is the loop counter; `fuel`
stands for the remaining loop iterations `MAX_RETRIES - attempt` (the
loop `for (attempt = 0; attempt < MAX_RETRIES; attempt++)` runs while
fuel is positive).  `fn attempt` is the outcome of the attempt-th
invocation of the wrapped function.  The result triple is
(outcome, number of invocations performed, backoff delays in ms slept
between attempts).  A delay of `1000 * (attempt + 1)` is inserted after
a failed attempt only when `attempt < MAX_RETRIES - 1` (lines 28-32). -/
def callWithRetryGo {α : Type} (fn : Nat → Except String α) :
    Nat → Nat → Option String → Except String α × Nat × List Nat
  | 0, _, lastError => (Except.error (retryFailureMessage lastError), MAX_RETRIES, [])
  | fuel + 1, attempt, lastError =>
    match fn attempt with
    | Except.ok v => (Except.ok v, attempt + 1, [])
    | Except.error e =>
      let rest := callWithRetryGo fn fuel (attempt + 1) (some e)
      if attempt < MAX_RETRIES - 1 then
        (rest.1, rest.2.1, 1000 * (attempt + 1) :: rest.2.2)
      else
        (rest.1, rest.2.1, rest.2.2)
      termination_by structural fuel => fuel

/-- `callWithRetry fn`: run the retry loop from attempt 0. -/
def callWithRetry {α : Type} (fn : Nat → Except String α) :
    Except String α × Nat × List Nat :=
  callWithRetryGo fn MAX_RETRIES 0 none

/-! ## Marker colors (App component lines 53 and 207-211) -/

def MARKER_COLORS : List String :=
  ["#34D399", "#60A5FA", "#FBBF24", "#A78BFA", "#F87171", "#F472B6"]

/-- `getNextColor`: read the palette at `lastColorIndex`, then advance the
index by one modulo the palette length.  Returns (color, new index). -/
def getNextColor (lastColorIndex : Nat) : String × Nat :=
  (MARKER_COLORS.getD lastColorIndex "",
   (lastColorIndex + 1) % MARKER_COLORS.length)

/-- A marker-list operation as seen by the color-index state: a creation
(which calls `getNextColor`) or a removal by id (which leaves
`lastColorIndex` untouched — `handleRemoveAssetMarker` never writes
it). -/
inductive MarkerOp : Type
  | add : MarkerOp
  | remove : Nat → MarkerOp
deriving DecidableEq, Repr

/-- Run a sequence of interleaved add/remove operations starting from
color-index state `idx`, returning the colors assigned to the created
markers in creation order. -/
def runColorOps : List MarkerOp → Nat → List String
  | [], _ => []
  | MarkerOp.add :: ops, idx =>
    (getNextColor idx).1 :: runColorOps ops (getNextColor idx).2
  | MarkerOp.remove _ :: ops, idx => runColorOps ops idx

/-- Number of marker creations in an operation sequence. -/
def numAdds : List MarkerOp → Nat
  | [] => 0
  | MarkerOp.add :: ops => numAdds ops + 1
  | MarkerOp.remove _ :: ops => numAdds ops

/-! ## Markers and marker updates (types module and App component) -/

/-- `EditMarker` (types module): optional fields are `Option`. -/
structure EditMarker where
  id : String
  x : ℚ
  y : ℚ
  prompt : String
  targetObjectLabel : Option String
deriving DecidableEq, Repr

/-- `AssetMarker` (types module). -/
structure AssetMarker where
  id : String
  assetId : String
  x : ℚ
  y : ℚ
  color : String
  prompt : Option String
  targetObjectLabel : Option String
deriving DecidableEq, Repr

/-- A `Partial<EditMarker>` record: `some v` models a field present in the
object literal, `none` a field that is absent (JavaScript spread then
keeps the original value). -/
structure EditMarkerPatch where
  id : Option String
  x : Option ℚ
  y : Option ℚ
  prompt : Option String
  targetObjectLabel : Option (Option String)
deriving DecidableEq, Repr

/-- A `Partial<AssetMarker>` record. -/
structure AssetMarkerPatch where
  id : Option String
  assetId : Option String
  x : Option ℚ
  y : Option ℚ
  color : Option String
  prompt : Option (Option String)
  targetObjectLabel : Option (Option String)
deriving DecidableEq, Repr

/-- The object spread `{ ...m, ...newProps }` for edit markers: each field
present in the patch replaces the marker field, each absent field keeps
the marker value. -/
def spreadEdit (m : EditMarker) (p : EditMarkerPatch) : EditMarker :=
  { id := p.id.getD m.id
    x := p.x.getD m.x
    y := p.y.getD m.y
    prompt := p.prompt.getD m.prompt
    targetObjectLabel := p.targetObjectLabel.getD m.targetObjectLabel }

/-- The object spread `{ ...m, ...newProps }` for asset markers. -/
def spreadAsset (m : AssetMarker) (p : AssetMarkerPatch) : AssetMarker :=
  { id := p.id.getD m.id
    assetId := p.assetId.getD m.assetId
    x := p.x.getD m.x
    y := p.y.getD m.y
    color := p.color.getD m.color
    prompt := p.prompt.getD m.prompt
    targetObjectLabel := p.targetObjectLabel.getD m.targetObjectLabel }

/-- `handleUpdateMarker` (App component lines 520-522):
`prev.map(m => m.id === id ? { ...m, ...newProps } : m)`. -/
def handleUpdateMarker (i : String) (p : EditMarkerPatch)
    (ms : List EditMarker) : List EditMarker :=
  ms.map (fun m => if m.id = i then spreadEdit m p else m)

/-- `handleUpdateAssetMarker` (App component lines 530-532). -/
def handleUpdateAssetMarker (i : String) (p : AssetMarkerPatch)
    (ms : List AssetMarker) : List AssetMarker :=
  ms.map (fun m => if m.id = i then spreadAsset m p else m)

/-! ## Application state and base-image lifecycle (App component) -/

/-- `ImageFile` (types module). -/
structure ImageFile where
  id : String
  dataUrl : String
deriving DecidableEq, Repr

/-- `GeneratedResult` (types module). -/
structure GeneratedResult where
  id : String
  image : String
  text : String
deriving DecidableEq, Repr

/-- The undo-history snapshot `EditorState` (App component lines 60-65). -/
structure EditorState where
  baseImage : Option ImageFile
  insertImages : List ImageFile
  markers : List EditMarker
  assetMarkers : List AssetMarker
deriving DecidableEq, Repr

/-- The slice of the App component state touched by the base-image
lifecycle handlers.  Transient loading flags (`isLoading`,
`loadingMessage`, `isSegmenting`) and the dev-console log are elided:
none of the embedded handlers is specified through them. -/
structure AppState where
  baseImage : Option ImageFile
  insertImages : List ImageFile
  markers : List EditMarker
  assetMarkers : List AssetMarker
  generatedResults : List GeneratedResult
  activeResultId : Option String
  error : Option String
  isCompareMode : Bool
  sliderPosition : ℚ
  imageContext : Option String
  segmentationLabels : Option (List String)
  hoveredMaskLabel : Option String
  zoom : ℚ
  canvasOffset : Pt
  history : List EditorState
deriving DecidableEq, Repr

/-- `saveStateToHistory` (App component lines 120-122). -/
def snapshot (s : AppState) : EditorState :=
  ⟨s.baseImage, s.insertImages, s.markers, s.assetMarkers⟩

/-- `handleBaseImageSet` (App component lines 228-262), after the
asynchronous file read and context request settle.  `loaded` is the read
image file on success and `none` when reading or analysing failed;
`context` is the scene description received on success.  The handler
saves a history snapshot when a base image was present, clears the
workspace, resets the viewport through `handleResetZoom()` (zoom 1,
offset (0,0)), and then installs the new image or the error message. -/
def handleBaseImageSet (s : AppState) (loaded : Option ImageFile)
    (context : Option String) : AppState :=
  let s0 : AppState :=
    { s with
      history := if s.baseImage.isSome then s.history ++ [snapshot s] else s.history
      baseImage := none
      generatedResults := []
      activeResultId := none
      markers := []
      assetMarkers := []
      isCompareMode := false
      imageContext := none
      segmentationLabels := none
      hoveredMaskLabel := none
      error := none
      zoom := 1
      canvasOffset := ⟨0, 0⟩ }
  match loaded with
  | some img => { s0 with baseImage := some img, imageContext := context }
  | none =>
    { s0 with
      baseImage := none
      error := some "Failed to load or analyse the image." }

/-- `handleSaveChanges` (App component lines 471-492): snapshot the
current state, and if a generated result is selected make it the new base
image (with a fresh id) and reset the workspace — but not the viewport.
Otherwise surface "No result selected to save.". -/
def handleSaveChanges (s : AppState) (freshId : String) : AppState :=
  let s1 : AppState := { s with history := s.history ++ [snapshot s] }
  match s.generatedResults.find? (fun r => s.activeResultId = some r.id) with
  | some r =>
    { s1 with
      baseImage := some ⟨freshId, r.image⟩
      generatedResults := []
      activeResultId := none
      assetMarkers := []
      markers := []
      error := none
      isCompareMode := false
      sliderPosition := 1 / 2
      segmentationLabels := none }
  | none => { s1 with error := some "No result selected to save." }

/-- `handleUndo` (App component lines 124-150): restore the last history
snapshot, pop it, and clear the transient result and segmentation state —
without touching the viewport. -/
def handleUndo (s : AppState) : AppState :=
  if h : s.history = [] then s
  else
    let prevState := s.history.getLast h
    { s with
      baseImage := prevState.baseImage
      insertImages := prevState.insertImages
      markers := prevState.markers
      assetMarkers := prevState.assetMarkers
      history := s.history.dropLast
      generatedResults := []
      activeResultId := none
      error := none
      isCompareMode := false
      segmentationLabels := none
      hoveredMaskLabel := none }

/-! ## Canvas pointer-gesture state machine (MainCanvas.tsx lines 217-257)

The React refs and state pieces read by the mouse handlers are gathered
in `CanvasState`; the props and values that stay fixed during a gesture
(`isCompareMode`, `isDisabled`, `displayImage`, `isSliderDragging`, the
bounding rectangle, `zoom` and `renderedImageGeom`) are gathered in
`CanvasCtx`.  The external notification callbacks that do not feed back
into this state — `onHoverMask`, `setCursorPosition`,
`onSliderDragEnd` — are elided; the marker/slider/offset mutations are
recorded.  `setZoom` never runs inside this gesture (only `handleWheel`
writes it), so `zoom` sits in the context. -/

/-- Per-gesture constants for the mouse handlers. -/
structure CanvasCtx where
  isCompareMode : Bool
  isDisabled : Bool
  hasDisplayImage : Bool
  isSliderDragging : Bool
  canvasRect : Option Pt
  zoom : ℚ
  geom : Geom
deriving DecidableEq, Repr

/-- Mutable state read and written by the mouse handlers.  `markerAdds`
records the coordinates passed to `onAddMarker`, `markerDragMoves` those
passed to `onUpdateMarker`/`onUpdateAssetMarker` during a marker drag,
and `sliderMoves` the positions passed to `onSliderPositionChange`. -/
structure CanvasState where
  isPanning : Bool
  didDrag : Bool
  draggedMarker : Bool
  panStart : Pt
  mouseDownPos : Pt
  canvasOffset : Pt
  markerAdds : List Pt
  markerDragMoves : List Pt
  sliderMoves : List ℚ
deriving DecidableEq, Repr

/-- The coordinate resolution every handler performs:
`getRelativeCoords(e)` with the current pan offset. -/
def relCoords (ctx : CanvasCtx) (s : CanvasState) (e : Pt) : Option Pt :=
  getRelativeCoordsOpt ctx.canvasRect s.canvasOffset ctx.zoom ctx.geom e

/-- `handleMouseDown` (lines 217-222).  `onMarker` is whether the event
target sits inside a `.marker-container` element. -/
def handleMouseDown (ctx : CanvasCtx) (onMarker : Bool) (e : Pt)
    (s : CanvasState) : CanvasState :=
  if ctx.isCompareMode = true ∨ ctx.isDisabled = true
      ∨ ctx.hasDisplayImage = false ∨ onMarker = true then s
  else
    { s with
      didDrag := false
      isPanning := true
      mouseDownPos := e
      panStart := ⟨e.x - s.canvasOffset.x, e.y - s.canvasOffset.y⟩ }

/-- `handleMouseMove` (lines 224-245).  In source order: the cursor
tooltip position update and the hover-label notification are elided
(external only); then the slider branch (`isSliderDragging && coords`),
then the panning branch with the 5px threshold (`dx > 5 || dy > 5`,
sticky `didDrag`, offset update and early return once dragging), then
the marker-drag branch (`draggedMarker && coords`). -/
def handleMouseMove (ctx : CanvasCtx) (e : Pt) (s : CanvasState) :
    CanvasState :=
  let coords := relCoords ctx s e
  match ctx.isSliderDragging, coords with
  | true, some c => { s with sliderMoves := s.sliderMoves ++ [c.x] }
  | _, _ =>
    if s.isPanning = true
        ∧ (s.didDrag = true
           ∨ |e.x - s.mouseDownPos.x| > 5 ∨ |e.y - s.mouseDownPos.y| > 5) then
      { s with
        didDrag := true
        canvasOffset := ⟨e.x - s.panStart.x, e.y - s.panStart.y⟩ }
    else
      match s.draggedMarker, coords with
      | true, some c => { s with markerDragMoves := s.markerDragMoves ++ [c] }
      | _, _ => s

/-- `handleMouseUp` (lines 247-257): a pan session that never crossed the
threshold and did not land on a marker resolves the release coordinate
and fires `onAddMarker` (when the coordinate resolved); then the session
flags are cleared. -/
def handleMouseUp (ctx : CanvasCtx) (onMarker : Bool) (e : Pt)
    (s : CanvasState) : CanvasState :=
  let s1 :=
    if s.isPanning = true ∧ s.didDrag = false ∧ onMarker = false then
      match relCoords ctx s e with
      | some c => { s with markerAdds := s.markerAdds ++ [c] }
      | none => s
    else s
  { s1 with didDrag := false, isPanning := false, draggedMarker := false }

/-- A full pointer gesture on empty canvas space: pointer-down at `down`,
the pointer-move positions `moves` in order, and pointer-up at the final
pointer position. -/
def runGesture (ctx : CanvasCtx) (s : CanvasState) (down : Pt)
    (moves : List Pt) : CanvasState :=
  let sd := handleMouseDown ctx false down s
  let sm := moves.foldl (fun st e => handleMouseMove ctx e st) sd
  handleMouseUp ctx false ((down :: moves).getLast (by simp)) sm

/-- A pointer move exceeds the 5px panning threshold relative to the
pointer-down position. -/
def exceedsThreshold (down m : Pt) : Prop :=
  |m.x - down.x| > 5 ∨ |m.y - down.y| > 5

instance (down m : Pt) : Decidable (exceedsThreshold down m) := by
  unfold exceedsThreshold
  infer_instance

/-- Concrete degenerate context: canvas element present, compare mode
off, enabled, image present, but a zero-sized rendered geometry. -/
def ctxDegenerate : CanvasCtx :=
  { isCompareMode := false
    isDisabled := false
    hasDisplayImage := true
    isSliderDragging := false
    canvasRect := some ⟨0, 0⟩
    zoom := 1
    geom := ⟨0, 0, 0, 0⟩ }

/-- Concrete quiescent canvas state. -/
def canvasState0 : CanvasState :=
  { isPanning := false
    didDrag := false
    draggedMarker := false
    panStart := ⟨0, 0⟩
    mouseDownPos := ⟨0, 0⟩
    canvasOffset := ⟨0, 0⟩
    markerAdds := []
    markerDragMoves := []
    sliderMoves := [] }

/-- A wrapped function that fails on its first two invocations and
succeeds on the third. -/
def fnSucceedThird : Nat → Except String Nat :=
  fun n => if n = 0 then Except.error "a"
    else if n = 1 then Except.error "b" else Except.ok 42

/-- A wrapped function that fails on every invocation. -/
def fnAlwaysFail : Nat → Except String Nat :=
  fun n => Except.error (if n = 0 then "a" else if n = 1 then "b" else "c")

/-- A concrete application state with a non-default viewport (zoom 2, pan
offset (5,7)), an uploaded base image and one selected generated
result. -/
def appStateEx : AppState :=
  { baseImage := some ⟨"base", "dataB"⟩
    insertImages := []
    markers := []
    assetMarkers := []
    generatedResults := [⟨"r1", "img1", "caption"⟩]
    activeResultId := some "r1"
    error := none
    isCompareMode := false
    sliderPosition := 1 / 2
    imageContext := none
    segmentationLabels := none
    hoveredMaskLabel := none
    zoom := 2
    canvasOffset := ⟨5, 7⟩
    history := [] }

/-- A concrete non-degenerate canvas context: enabled, image present,
10×10 rendered geometry at the container origin, zoom 1. -/
def ctxSmall : CanvasCtx :=
  { isCompareMode := false
    isDisabled := false
    hasDisplayImage := true
    isSliderDragging := false
    canvasRect := some ⟨0, 0⟩
    zoom := 1
    geom := ⟨0, 0, 10, 10⟩ }

/-! # Theorems -/

/-! ## Helper lemmas -/

theorem clamp01_nonneg (v : ℚ) : 0 ≤ clamp01 v := le_max_left _ _

theorem clamp01_le_one (v : ℚ) : clamp01 v ≤ 1 :=
  max_le (by norm_num) (min_le_right _ _)

theorem clamp01_eq_self (v : ℚ) (h0 : 0 ≤ v) (h1 : v ≤ 1) : clamp01 v = v := by
  unfold clamp01
  rw [min_eq_left h1, max_eq_right h0]

theorem clamp01_div (v w : ℚ) (hw : 0 < w) :
    max 0 (min v w) / w = clamp01 (v / w) := by
  unfold clamp01
  rcases le_total v 0 with h | h
  · have hv : v / w ≤ 0 := div_nonpos_iff.mpr (Or.inr ⟨h, hw.le⟩)
    rw [min_eq_left (h.trans hw.le), max_eq_left h, zero_div,
      min_eq_left (hv.trans (by norm_num)), max_eq_left hv]
  · rcases le_total v w with h2 | h2
    · have hv0 : 0 ≤ v / w := div_nonneg h hw.le
      have hv1 : v / w ≤ 1 := (div_le_one hw).mpr h2
      rw [min_eq_left h2, max_eq_right h, min_eq_left hv1, max_eq_right hv0]
    · have hv1 : 1 ≤ v / w := (one_le_div hw).mpr h2
      rw [min_eq_right h2, max_eq_right hw.le, div_self hw.ne',
        min_eq_right hv1, max_eq_right (by norm_num : (0:ℚ) ≤ 1)]

/-! ## Claim C1 — hit-map correctness -/

/-- C1 (code bug, evaluated at the failing input): with two masks, the
first covering pixel (0,0) and the second covering pixel (1,0), loaded in
list order, the claim says the raster holds `0 + 1 = 1` at pixel (0,0)
and lookup there returns the first mask's label.  The code's `onload`
handler for each mask fills the whole canvas and then erases everything
outside that mask via `destination-in`, so after the second mask loads,
pixel (0,0) holds 0 and lookup returns no label — only the last mask
survives in the raster. -/
theorem c1_hitmap_last_mask_only :
    buildHitMap [maskA, maskB] (0, 0) = 0 ∧
    claimedHitMap [maskA, maskB] (0, 0) = 1 ∧
    getLabelFromHitMap (buildHitMap [maskA, maskB]) 2 1 ["a", "b"] ⟨0, 0⟩ = none ∧
    getLabelFromHitMap (claimedHitMap [maskA, maskB]) 2 1 ["a", "b"] ⟨0, 0⟩
      = some "a" := by
  refine ⟨?_, ?_, ?_, ?_⟩
  · simp [buildHitMap, maskOnload, maskA, maskB, List.enum, Prod.ext_iff]
  · simp [claimedHitMap, maskA, maskB, List.enum, Prod.ext_iff]
  · simp [getLabelFromHitMap, buildHitMap, maskOnload, maskA, maskB,
      List.enum, Prod.ext_iff]
  · simp [getLabelFromHitMap, claimedHitMap, maskA, maskB, List.enum,
      Prod.ext_iff]

/-! ## Claim C2 — partial-success policy -/

/-- C2 counterexample: two parallel variation calls, the first succeeding
with one image and the second failing.  At least one call succeeded, yet
the code (`Promise.all`) rejects the whole batch: an error is surfaced
and no variation is kept — the claim is false at this input. -/
theorem c2_partial_results_counterexample :
    handleGenerationResults (α := Nat)
        [Except.ok [7], Except.error "model call failed"]
      = (some "model call failed", []) ∧
    (handleGenerationResults (α := Nat)
        [Except.ok [7], Except.error "model call failed"]).1 ≠ none := by
  constructor <;> simp [handleGenerationResults, promiseAll, Except.map]

/-- C2 amended: generation is all-or-nothing.  When every variation call
succeeds, all (flattened) results are kept and an error is surfaced only
when they flatten to zero images; when any call fails, the whole batch is
rejected, that failure is surfaced, and every successful variation is
discarded. -/
theorem c2_all_or_nothing_amended {α : Type} (oks : List (List α))
    (pre post : List (Except String (List α))) (e : String)
    (hpre : ∀ c ∈ pre, ∃ rs, c = Except.ok rs) :
    (handleGenerationResults (oks.map Except.ok)
      = if oks.flatten.isEmpty
          then (some "Generation failed. The model could not produce a valid result.", [])
          else (none, oks.flatten)) ∧
    handleGenerationResults (pre ++ Except.error e :: post) = (some e, []) := by
  constructor
  · have h : promiseAll (oks.map Except.ok)
        = (Except.ok oks : Except String (List (List α))) := by
      induction oks with
      | nil => rfl
      | cons a t ih => simp [promiseAll, ih, Except.map]
    simp only [handleGenerationResults, h]
  · have h : promiseAll (pre ++ Except.error e :: post)
        = (Except.error e : Except String (List (List α))) := by
      induction pre with
      | nil => rfl
      | cons c t ih =>
        obtain ⟨rs, rfl⟩ := hpre c (by simp)
        simp only [List.cons_append, promiseAll, List.append_eq,
          ih (fun d hd => hpre d (by simp [hd])), Except.map]
    simp [handleGenerationResults, h]

/-- Witness for `c2_all_or_nothing_amended` at a concrete input. -/
theorem c2_all_or_nothing_amended_witness :
    (handleGenerationResults ([[1]].map Except.ok)
      = if ([[1]] : List (List Nat)).flatten.isEmpty
          then (some "Generation failed. The model could not produce a valid result.", [])
          else (none, ([[1]] : List (List Nat)).flatten)) ∧
    handleGenerationResults ([Except.ok [2]] ++ Except.error "x" :: [])
      = (some "x", ([] : List Nat)) :=
  c2_all_or_nothing_amended [[1]] [Except.ok [2]] [] "x"
    (by intro c hc; simp at hc; exact ⟨[2], hc⟩)

/-! ## Claim C7 — bounded retry with linear backoff -/

/-- C7: the wrapped function is invoked at most 3 times; two failures
followed by a success return the third result after exactly 3
invocations with delays 1000ms then 2000ms; three failures throw the
failure message carrying the last error. -/
theorem c7_call_with_retry {α : Type} (fn : Nat → Except String α)
    (e0 e1 e2 : String) (v : α) :
    (callWithRetry fn).2.1 ≤ 3 ∧
    (fn 0 = Except.error e0 → fn 1 = Except.error e1 → fn 2 = Except.ok v →
      callWithRetry fn = (Except.ok v, 3, [1000, 2000])) ∧
    (fn 0 = Except.error e0 → fn 1 = Except.error e1 → fn 2 = Except.error e2 →
      callWithRetry fn
        = (Except.error (retryFailureMessage (some e2)), 3, [1000, 2000])) := by
  refine ⟨?_, ?_, ?_⟩
  · rcases h0 : fn 0 with u0 | u0 <;> rcases h1 : fn 1 with u1 | u1 <;>
      rcases h2 : fn 2 with u2 | u2 <;>
      simp [callWithRetry, callWithRetryGo, MAX_RETRIES, h0, h1, h2]
  · intro h0 h1 h2
    simp [callWithRetry, callWithRetryGo, MAX_RETRIES, h0, h1, h2]
  · intro h0 h1 h2
    simp [callWithRetry, callWithRetryGo, MAX_RETRIES, h0, h1, h2]

/-- Witness for `c7_call_with_retry` at concrete wrapped functions. -/
theorem c7_call_with_retry_witness :
    (callWithRetry fnSucceedThird).2.1 ≤ 3 ∧
    callWithRetry fnSucceedThird = (Except.ok 42, 3, [1000, 2000]) ∧
    callWithRetry fnAlwaysFail
      = (Except.error (retryFailureMessage (some "c")), 3, [1000, 2000]) :=
  ⟨(c7_call_with_retry fnSucceedThird "a" "b" "c" 42).1,
   (c7_call_with_retry fnSucceedThird "a" "b" "c" 42).2.1 rfl rfl rfl,
   (c7_call_with_retry fnAlwaysFail "a" "b" "c" 0).2.2 rfl rfl rfl⟩

/-! ## Claim C8 — round-robin color assignment -/

/-- The color sequence produced from any starting index below the palette
length. -/
theorem runColorOps_eq_range (ops : List MarkerOp) :
    ∀ i, i < 6 →
      runColorOps ops i = (List.range (numAdds ops)).map
        (fun k => MARKER_COLORS.getD ((i + k) % 6) "") := by
  induction ops with
  | nil => intro i _; simp [runColorOps, numAdds]
  | cons op t ih =>
    intro i hi
    cases op with
    | add =>
      have hlen : MARKER_COLORS.length = 6 := by simp [MARKER_COLORS]
      have hstep : (i + 1) % 6 < 6 := Nat.mod_lt _ (by norm_num)
      simp only [runColorOps, numAdds, getNextColor, hlen,
        List.range_succ_eq_map, List.map_cons, List.map_map]
      congr 1
      · rw [Nat.add_zero, Nat.mod_eq_of_lt hi]
      · rw [ih ((i + 1) % 6) hstep]
        refine List.map_congr_left ?_
        intro k _
        simp only [Function.comp_apply]
        have : ((i + 1) % 6 + k) % 6 = (i + Nat.succ k) % 6 := by
          rw [Nat.mod_add_mod]
          congr 1
          omega
        rw [this]
    | remove j =>
      simp only [runColorOps, numAdds]
      exact ih i hi

/-- C8: for every sequence of interleaved add/remove operations, the
colors assigned to created asset markers are, in creation order, the
palette entries at positions 0, 1, 2, ... modulo 6 — i.e. the k-th
created marker (1-based) receives `MARKER_COLORS[(k-1) % 6]`,
independent of removals. -/
theorem c8_round_robin_colors (ops : List MarkerOp) :
    runColorOps ops 0 = (List.range (numAdds ops)).map
      (fun k => MARKER_COLORS.getD (k % 6) "") := by
  have h := runColorOps_eq_range ops 0 (by norm_num)
  simpa using h

/-! ## Claim C9 — viewport reset invariant -/

/-- C9 counterexample: in a state with zoom 2 and pan offset (5,7),
saving the selected generated result installs a new base image but leaves
the viewport untouched, and a subsequent undo restores the previous base
image, again leaving the viewport untouched — the claimed reset to
`(1, (0,0))` does not happen for either operation. -/
theorem c9_no_reset_counterexample :
    (handleSaveChanges appStateEx "fresh1").baseImage ≠ appStateEx.baseImage ∧
    (handleSaveChanges appStateEx "fresh1").zoom ≠ 1 ∧
    (handleSaveChanges appStateEx "fresh1").canvasOffset ≠ ⟨0, 0⟩ ∧
    (handleUndo (handleSaveChanges appStateEx "fresh1")).baseImage
      ≠ (handleSaveChanges appStateEx "fresh1").baseImage ∧
    (handleUndo (handleSaveChanges appStateEx "fresh1")).zoom ≠ 1 := by
  refine ⟨?_, ?_, ?_, ?_, ?_⟩ <;>
    simp [handleSaveChanges, handleUndo, appStateEx, snapshot, Pt.mk.injEq]

/-- C9 amended: the viewport is reset to zoom 1 and pan offset (0,0) only
by a new base-image upload (`handleBaseImageSet`, which calls
`handleResetZoom`, in both its success and failure outcomes); saving a
selected result as the new base image (`handleSaveChanges`) and undo
(`handleUndo`) leave zoom and pan offset unchanged. -/
theorem c9_reset_only_on_upload (s : AppState) (f : ImageFile)
    (ctxt : Option String) (fresh : String) :
    (handleBaseImageSet s (some f) ctxt).zoom = 1 ∧
    (handleBaseImageSet s (some f) ctxt).canvasOffset = ⟨0, 0⟩ ∧
    (handleBaseImageSet s none ctxt).zoom = 1 ∧
    (handleBaseImageSet s none ctxt).canvasOffset = ⟨0, 0⟩ ∧
    (handleSaveChanges s fresh).zoom = s.zoom ∧
    (handleSaveChanges s fresh).canvasOffset = s.canvasOffset ∧
    (handleUndo s).zoom = s.zoom ∧
    (handleUndo s).canvasOffset = s.canvasOffset := by
  refine ⟨rfl, rfl, rfl, rfl, ?_, ?_, ?_, ?_⟩ <;>
    first
    | (unfold handleSaveChanges
       cases s.generatedResults.find? (fun r => s.activeResultId = some r.id) <;> rfl)
    | (unfold handleUndo
       split <;> rfl)

/-! ## Claim C4 — forward transform clamps into the unit square -/

/-- C4: for every pointer position, pan offset, positive zoom, and
rendered geometry with positive width and height, `getRelativeCoords`
returns exactly the independent per-axis clamp of the unclamped
normalized coordinate, so both components lie in [0,1]. -/
theorem c4_forward_transform_clamps (rect off client : Pt) (zoom : ℚ)
    (g : Geom) (_hz : 0 < zoom) (hw : 0 < g.width) (hh : 0 < g.height) :
    getRelativeCoords rect off zoom g client =
      ⟨clamp01 (((client.x - rect.x - off.x) / zoom - g.x) / g.width),
       clamp01 (((client.y - rect.y - off.y) / zoom - g.y) / g.height)⟩ ∧
    0 ≤ (getRelativeCoords rect off zoom g client).x ∧
    (getRelativeCoords rect off zoom g client).x ≤ 1 ∧
    0 ≤ (getRelativeCoords rect off zoom g client).y ∧
    (getRelativeCoords rect off zoom g client).y ≤ 1 := by
  have heq : getRelativeCoords rect off zoom g client =
      ⟨clamp01 (((client.x - rect.x - off.x) / zoom - g.x) / g.width),
       clamp01 (((client.y - rect.y - off.y) / zoom - g.y) / g.height)⟩ := by
    simp only [getRelativeCoords]
    split_ifs with h
    · rw [clamp01_div _ _ hw, clamp01_div _ _ hh]
    · push_neg at h
      obtain ⟨hx0, hxw, hy0, hyh⟩ := h
      rw [clamp01_eq_self _ (div_nonneg hx0 hw.le) ((div_le_one hw).mpr hxw),
        clamp01_eq_self _ (div_nonneg hy0 hh.le) ((div_le_one hh).mpr hyh)]
  refine ⟨heq, ?_, ?_, ?_, ?_⟩ <;> rw [heq]
  · exact clamp01_nonneg _
  · exact clamp01_le_one _
  · exact clamp01_nonneg _
  · exact clamp01_le_one _

/-- Witness for `c4_forward_transform_clamps` at a concrete pointer
position outside the rendered rectangle. -/
theorem c4_forward_transform_clamps_witness :
    getRelativeCoords ⟨0, 0⟩ ⟨0, 0⟩ 1 ⟨0, 0, 10, 10⟩ ⟨20, -3⟩ =
      ⟨clamp01 ((((20:ℚ) - 0 - 0) / 1 - 0) / 10),
       clamp01 ((((-3:ℚ) - 0 - 0) / 1 - 0) / 10)⟩ ∧
    0 ≤ (getRelativeCoords ⟨0, 0⟩ ⟨0, 0⟩ 1 ⟨0, 0, 10, 10⟩ ⟨20, -3⟩).x ∧
    (getRelativeCoords ⟨0, 0⟩ ⟨0, 0⟩ 1 ⟨0, 0, 10, 10⟩ ⟨20, -3⟩).x ≤ 1 ∧
    0 ≤ (getRelativeCoords ⟨0, 0⟩ ⟨0, 0⟩ 1 ⟨0, 0, 10, 10⟩ ⟨20, -3⟩).y ∧
    (getRelativeCoords ⟨0, 0⟩ ⟨0, 0⟩ 1 ⟨0, 0, 10, 10⟩ ⟨20, -3⟩).y ≤ 1 :=
  c4_forward_transform_clamps ⟨0, 0⟩ ⟨0, 0⟩ ⟨20, -3⟩ 1 ⟨0, 0, 10, 10⟩
    (by norm_num) (by norm_num) (by norm_num)

/-! ## Claim C5 — zoom-about-cursor invariance -/

/-- C5: updating the pan offset by the `handleWheel` formula when zoom
changes from `oldZoom` to `newZoom`, centered at the cursor, leaves the
normalized coordinate resolved under the cursor unchanged (exactly, in
rational arithmetic). -/
theorem c5_zoom_about_cursor (rect off client : Pt) (oldZoom newZoom : ℚ)
    (g : Geom) (ho : oldZoom ≠ 0) (hn : newZoom ≠ 0) :
    getRelativeCoords rect
      (wheelNewOffset ⟨client.x - rect.x, client.y - rect.y⟩ off oldZoom newZoom)
      newZoom g client
    = getRelativeCoords rect off oldZoom g client := by
  have hx : (client.x - rect.x
        - (wheelNewOffset ⟨client.x - rect.x, client.y - rect.y⟩ off oldZoom newZoom).x)
        / newZoom
      = (client.x - rect.x - off.x) / oldZoom := by
    simp only [wheelNewOffset]
    field_simp
    ring
  have hy : (client.y - rect.y
        - (wheelNewOffset ⟨client.x - rect.x, client.y - rect.y⟩ off oldZoom newZoom).y)
        / newZoom
      = (client.y - rect.y - off.y) / oldZoom := by
    simp only [wheelNewOffset]
    field_simp
    ring
  simp only [getRelativeCoords, hx, hy]

/-- Witness for `c5_zoom_about_cursor` at a concrete wheel-zoom step
(zoom 1 → 6/5 centered at (3,4)). -/
theorem c5_zoom_about_cursor_witness :
    getRelativeCoords ⟨0, 0⟩
      (wheelNewOffset ⟨(3:ℚ) - 0, (4:ℚ) - 0⟩ ⟨1, 1⟩ 1 (6/5)) (6/5)
      ⟨0, 0, 10, 10⟩ ⟨3, 4⟩
    = getRelativeCoords ⟨0, 0⟩ ⟨1, 1⟩ 1 ⟨0, 0, 10, 10⟩ ⟨3, 4⟩ :=
  c5_zoom_about_cursor ⟨0, 0⟩ ⟨1, 1⟩ ⟨3, 4⟩ 1 (6/5) ⟨0, 0, 10, 10⟩
    (by norm_num) (by norm_num)

/-! ## Claim C3 — degenerate-geometry totality -/

/-- C3 counterexample: with the canvas element present but a zero-sized
rendered geometry, `getRelativeCoords` still reports a resolved
coordinate (its only `null` exit is the missing canvas element — there is
no degeneracy check), and a click gesture at that geometry still fires a
marker-add event, mutating state. -/
theorem c3_degenerate_counterexample :
    getRelativeCoordsOpt (some ⟨0, 0⟩) ⟨0, 0⟩ 1 ⟨0, 0, 0, 0⟩ ⟨0, 0⟩ ≠ none ∧
    (runGesture ctxDegenerate canvasState0 ⟨0, 0⟩ []).markerAdds ≠ [] := by
  constructor
  · simp [getRelativeCoordsOpt]
  · simp [runGesture, handleMouseDown, handleMouseUp, relCoords,
      getRelativeCoordsOpt, ctxDegenerate, canvasState0]

/-- C3 amended: the coordinate transform performs no degenerate-geometry
check at all — whenever the canvas element is present it reports a
resolved coordinate, for every geometry including zero-sized ones (in the
source the degenerate division produces NaN components rather than a
rejection), and `null` is reported exactly when the canvas element is
absent.  The image-not-yet-loaded state does not make the geometry
degenerate: the initial rendered geometry has width 1 and height 1. -/
theorem c3_no_degeneracy_guard (rect off client : Pt) (zoom : ℚ) (g : Geom) :
    (getRelativeCoordsOpt (some rect) off zoom g client).isSome = true ∧
    getRelativeCoordsOpt none off zoom g client = none ∧
    initialRenderedImageGeom.width = 1 ∧
    initialRenderedImageGeom.height = 1 := by
  exact ⟨rfl, rfl, rfl, rfl⟩

/-! ## Claim C10 — update-by-id frame property -/

/-- A map whose function fixes every list element is the identity. -/
theorem map_eq_self_of {α : Type} (l : List α) (f : α → α)
    (h : ∀ a ∈ l, f a = a) : l.map f = l := by
  induction l with
  | nil => rfl
  | cons a t ih =>
    simp only [List.map_cons, h a (by simp),
      ih (fun b hb => h b (by simp [hb]))]

/-- C10: for a partial-field record that does not carry the `id` field
(as every caller builds it), updating by id replaces exactly the markers
whose id matches, changing only the fields present in the record and
preserving the id and every absent field; markers at every other position
are returned unchanged, and when no id matches the whole list is returned
unchanged.  The same holds for asset markers. -/
theorem c10_update_by_id_frame (ms : List EditMarker) (ams : List AssetMarker)
    (i : String) (pe : EditMarkerPatch) (pa : AssetMarkerPatch)
    (hpe : pe.id = none) (hpa : pa.id = none) :
    ((∀ m ∈ ms, m.id ≠ i) → handleUpdateMarker i pe ms = ms) ∧
    (∀ (k : Nat) m, ms[k]? = some m →
      (m.id ≠ i → (handleUpdateMarker i pe ms)[k]? = some m) ∧
      (m.id = i →
        (handleUpdateMarker i pe ms)[k]? = some (spreadEdit m pe) ∧
        (spreadEdit m pe).id = m.id ∧
        (pe.x = none → (spreadEdit m pe).x = m.x) ∧
        (∀ v, pe.x = some v → (spreadEdit m pe).x = v) ∧
        (pe.y = none → (spreadEdit m pe).y = m.y) ∧
        (∀ v, pe.y = some v → (spreadEdit m pe).y = v) ∧
        (pe.prompt = none → (spreadEdit m pe).prompt = m.prompt) ∧
        (∀ v, pe.prompt = some v → (spreadEdit m pe).prompt = v) ∧
        (pe.targetObjectLabel = none →
          (spreadEdit m pe).targetObjectLabel = m.targetObjectLabel) ∧
        (∀ v, pe.targetObjectLabel = some v →
          (spreadEdit m pe).targetObjectLabel = v))) ∧
    ((∀ m ∈ ams, m.id ≠ i) → handleUpdateAssetMarker i pa ams = ams) ∧
    (∀ (k : Nat) m, ams[k]? = some m →
      (m.id ≠ i → (handleUpdateAssetMarker i pa ams)[k]? = some m) ∧
      (m.id = i →
        (handleUpdateAssetMarker i pa ams)[k]? = some (spreadAsset m pa) ∧
        (spreadAsset m pa).id = m.id ∧
        (pa.assetId = none → (spreadAsset m pa).assetId = m.assetId) ∧
        (∀ v, pa.assetId = some v → (spreadAsset m pa).assetId = v) ∧
        (pa.x = none → (spreadAsset m pa).x = m.x) ∧
        (∀ v, pa.x = some v → (spreadAsset m pa).x = v) ∧
        (pa.y = none → (spreadAsset m pa).y = m.y) ∧
        (∀ v, pa.y = some v → (spreadAsset m pa).y = v) ∧
        (pa.color = none → (spreadAsset m pa).color = m.color) ∧
        (∀ v, pa.color = some v → (spreadAsset m pa).color = v) ∧
        (pa.prompt = none → (spreadAsset m pa).prompt = m.prompt) ∧
        (∀ v, pa.prompt = some v → (spreadAsset m pa).prompt = v) ∧
        (pa.targetObjectLabel = none →
          (spreadAsset m pa).targetObjectLabel = m.targetObjectLabel) ∧
        (∀ v, pa.targetObjectLabel = some v →
          (spreadAsset m pa).targetObjectLabel = v))) := by
  refine ⟨?_, ?_, ?_, ?_⟩
  · intro hall
    exact map_eq_self_of ms _ (fun m hm => if_neg (hall m hm))
  · intro k m hk
    constructor
    · intro hne
      unfold handleUpdateMarker
      rw [List.getElem?_map, hk]
      simp [if_neg hne]
    · intro heq
      refine ⟨?_, by simp [spreadEdit, hpe], ?_, ?_, ?_, ?_, ?_, ?_, ?_, ?_⟩
      · unfold handleUpdateMarker
        rw [List.getElem?_map, hk]
        simp [heq]
      all_goals first
        | (intro h; simp [spreadEdit, h])
        | (intro v h; simp [spreadEdit, h])
  · intro hall
    exact map_eq_self_of ams _ (fun m hm => if_neg (hall m hm))
  · intro k m hk
    constructor
    · intro hne
      unfold handleUpdateAssetMarker
      rw [List.getElem?_map, hk]
      simp [if_neg hne]
    · intro heq
      refine ⟨?_, by simp [spreadAsset, hpa],
        ?_, ?_, ?_, ?_, ?_, ?_, ?_, ?_, ?_, ?_, ?_, ?_⟩
      · unfold handleUpdateAssetMarker
        rw [List.getElem?_map, hk]
        simp [heq]
      all_goals first
        | (intro h; simp [spreadAsset, h])
        | (intro v h; simp [spreadAsset, h])

/-- Witness for `c10_update_by_id_frame`: consequences of the theorem at
a concrete two-marker list, an id-free patch moving x to 1/2, and a
concrete asset-marker list. -/
theorem c10_update_by_id_frame_witness :
    (handleUpdateMarker "m1" ⟨none, some (1/2), none, none, none⟩
        [⟨"m1", 0, 0, "p", none⟩, ⟨"m2", 1, 1, "q", none⟩])[0]?
      = some (spreadEdit ⟨"m1", 0, 0, "p", none⟩
          ⟨none, some (1/2), none, none, none⟩) ∧
    (handleUpdateMarker "m1" ⟨none, some (1/2), none, none, none⟩
        [⟨"m1", 0, 0, "p", none⟩, ⟨"m2", 1, 1, "q", none⟩])[1]?
      = some ⟨"m2", 1, 1, "q", none⟩ ∧
    handleUpdateAssetMarker "zzz" ⟨none, none, none, some (1/3), none, none, none⟩
        [⟨"a1", "asset", 0, 0, "#34D399", none, none⟩]
      = [⟨"a1", "asset", 0, 0, "#34D399", none, none⟩] := by
  have h := c10_update_by_id_frame
    [⟨"m1", 0, 0, "p", none⟩, ⟨"m2", 1, 1, "q", none⟩]
    [⟨"a1", "asset", 0, 0, "#34D399", none, none⟩]
    "m1" ⟨none, some (1/2), none, none, none⟩
    ⟨none, none, none, some (1/3), none, none, none⟩ rfl rfl
  have h2 := c10_update_by_id_frame
    [⟨"m1", 0, 0, "p", none⟩, ⟨"m2", 1, 1, "q", none⟩]
    [⟨"a1", "asset", 0, 0, "#34D399", none, none⟩]
    "zzz" ⟨none, some (1/2), none, none, none⟩
    ⟨none, none, none, some (1/3), none, none, none⟩ rfl rfl
  refine ⟨((h.2.1 0 ⟨"m1", 0, 0, "p", none⟩ rfl).2 rfl).1,
    (h.2.1 1 ⟨"m2", 1, 1, "q", none⟩ rfl).1 (by decide),
    h2.2.2.1 ?_⟩
  intro m hm
  simp at hm
  subst hm
  decide

/-! ## Claim C6 — panning threshold -/

/-- When the compare slider is not being dragged, `handleMouseMove`
reduces to the panning branch followed by the marker-drag branch. -/
theorem handleMouseMove_no_slider (ctx : CanvasCtx)
    (hs : ctx.isSliderDragging = false) (e : Pt) (s : CanvasState) :
    handleMouseMove ctx e s =
      if s.isPanning = true
          ∧ (s.didDrag = true
             ∨ |e.x - s.mouseDownPos.x| > 5 ∨ |e.y - s.mouseDownPos.y| > 5) then
        { s with
          didDrag := true
          canvasOffset := ⟨e.x - s.panStart.x, e.y - s.panStart.y⟩ }
      else
        match s.draggedMarker, relCoords ctx s e with
        | true, some c => { s with markerDragMoves := s.markerDragMoves ++ [c] }
        | _, _ => s := by
  unfold handleMouseMove
  rw [hs]

/-- The pan-gesture invariant of folding `handleMouseMove` over a list of
pointer-move positions, starting in a panning session with no marker
being dragged: the session flags, down-position, pan anchor and
marker-add log are preserved; if the session starts clean and no move
exceeds the 5px threshold, `didDrag` stays false and the offset is
untouched; if the session is already dirty or any move exceeds the
threshold, `didDrag` ends true and the offset tracks the last move
relative to the pan anchor. -/
theorem mouseMoveFold_invariant (ctx : CanvasCtx)
    (hs : ctx.isSliderDragging = false) (ms : List Pt) :
    ∀ s : CanvasState, s.isPanning = true → s.draggedMarker = false →
      (ms.foldl (fun st e => handleMouseMove ctx e st) s).isPanning = true ∧
      (ms.foldl (fun st e => handleMouseMove ctx e st) s).draggedMarker = false ∧
      (ms.foldl (fun st e => handleMouseMove ctx e st) s).mouseDownPos
        = s.mouseDownPos ∧
      (ms.foldl (fun st e => handleMouseMove ctx e st) s).panStart = s.panStart ∧
      (ms.foldl (fun st e => handleMouseMove ctx e st) s).markerAdds
        = s.markerAdds ∧
      ((s.didDrag = false ∧ ∀ m ∈ ms, ¬ exceedsThreshold s.mouseDownPos m) →
        (ms.foldl (fun st e => handleMouseMove ctx e st) s).didDrag = false ∧
        (ms.foldl (fun st e => handleMouseMove ctx e st) s).canvasOffset
          = s.canvasOffset) ∧
      (∀ hne : ms ≠ [],
        (s.didDrag = true ∨ ∃ m ∈ ms, exceedsThreshold s.mouseDownPos m) →
        (ms.foldl (fun st e => handleMouseMove ctx e st) s).didDrag = true ∧
        (ms.foldl (fun st e => handleMouseMove ctx e st) s).canvasOffset
          = ⟨(ms.getLast hne).x - s.panStart.x,
             (ms.getLast hne).y - s.panStart.y⟩) := by
  induction ms with
  | nil =>
    intro s hp hd
    refine ⟨hp, hd, rfl, rfl, rfl, fun h => ⟨h.1, rfl⟩, fun hne _ => absurd rfl hne⟩
  | cons e t ih =>
    intro s hp hd
    by_cases hcond : s.didDrag = true ∨ exceedsThreshold s.mouseDownPos e
    · have hstep : handleMouseMove ctx e s =
          { s with
            didDrag := true
            canvasOffset := ⟨e.x - s.panStart.x, e.y - s.panStart.y⟩ } := by
        rw [handleMouseMove_no_slider ctx hs]
        rw [if_pos ⟨hp, hcond⟩]
      simp only [List.foldl_cons, hstep]
      obtain ⟨ih1, ih2, ih3, ih4, ih5, ih6, ih7⟩ :=
        ih { s with
              didDrag := true
              canvasOffset := ⟨e.x - s.panStart.x, e.y - s.panStart.y⟩ }
          hp hd
      refine ⟨ih1, ih2, ih3, ih4, ih5, ?_, ?_⟩
      · intro hclean
        exfalso
        rcases hcond with h | h
        · rw [hclean.1] at h
          exact Bool.false_ne_true h
        · exact hclean.2 e (by simp) h
      · intro _ _
        rcases eq_or_ne t [] with ht | ht
        · subst ht
          exact ⟨rfl, rfl⟩
        · have := ih7 ht (Or.inl rfl)
          rw [List.getLast_cons ht]
          exact this
    · have hstep : handleMouseMove ctx e s = s := by
        rw [handleMouseMove_no_slider ctx hs]
        rw [if_neg (fun h => hcond h.2)]
        rw [hd]
      simp only [List.foldl_cons, hstep]
      obtain ⟨ih1, ih2, ih3, ih4, ih5, ih6, ih7⟩ := ih s hp hd
      refine ⟨ih1, ih2, ih3, ih4, ih5, ?_, ?_⟩
      · intro hclean
        exact ih6 ⟨hclean.1, fun m hm => hclean.2 m (by simp [hm])⟩
      · intro _ hdirty
        have hexc : ∃ m ∈ t, exceedsThreshold s.mouseDownPos m := by
          rcases hdirty with h | ⟨m, hm, hx⟩
          · exact absurd (Or.inl h) hcond
          · rcases List.mem_cons.mp hm with rfl | hm
            · exact absurd (Or.inr hx) hcond
            · exact ⟨m, hm, hx⟩
        have ht : t ≠ [] := by
          obtain ⟨m, hm, -⟩ := hexc
          exact List.ne_nil_of_mem hm
        have := ih7 ht (Or.inr hexc)
        rw [List.getLast_cons ht]
        exact this

/-- C6: for a pointer-down on empty canvas space (compare mode off,
interaction enabled, image present, slider not dragging, no marker drag
in progress), if no pointer move exceeds the 5px threshold on either axis
then pointer-up fires exactly one marker-add at the coordinate resolved
at the release position and the pan offset is unchanged; if some move
exceeds the threshold then no marker-add fires and the pan offset changes
by exactly the pointer delta (final pointer position minus down
position). -/
theorem c6_panning_threshold (ctx : CanvasCtx) (rect : Pt) (s0 : CanvasState)
    (down : Pt) (moves : List Pt)
    (hc : ctx.isCompareMode = false) (hd : ctx.isDisabled = false)
    (hi : ctx.hasDisplayImage = true) (hs : ctx.isSliderDragging = false)
    (hr : ctx.canvasRect = some rect) (hdm : s0.draggedMarker = false) :
    ((∀ m ∈ moves, ¬ exceedsThreshold down m) →
      (runGesture ctx s0 down moves).canvasOffset = s0.canvasOffset ∧
      (runGesture ctx s0 down moves).markerAdds = s0.markerAdds ++
        [getRelativeCoords rect s0.canvasOffset ctx.zoom ctx.geom
          ((down :: moves).getLast (by simp))]) ∧
    (∀ m ∈ moves, exceedsThreshold down m →
      (runGesture ctx s0 down moves).markerAdds = s0.markerAdds ∧
      (runGesture ctx s0 down moves).canvasOffset =
        ⟨s0.canvasOffset.x + (((down :: moves).getLast (by simp)).x - down.x),
         s0.canvasOffset.y + (((down :: moves).getLast (by simp)).y - down.y)⟩) := by
  have hsd : handleMouseDown ctx false down s0 =
      { s0 with
        didDrag := false
        isPanning := true
        mouseDownPos := down
        panStart := ⟨down.x - s0.canvasOffset.x, down.y - s0.canvasOffset.y⟩ } := by
    unfold handleMouseDown
    rw [hc, hd, hi]
    simp
  simp only [runGesture, hsd]
  obtain ⟨f1, f2, f3, f4, f5, f6, f7⟩ := mouseMoveFold_invariant ctx hs moves
    { s0 with
      didDrag := false
      isPanning := true
      mouseDownPos := down
      panStart := ⟨down.x - s0.canvasOffset.x, down.y - s0.canvasOffset.y⟩ }
    rfl hdm
  constructor
  · intro hall
    obtain ⟨hdd, hoff⟩ := f6 ⟨rfl, hall⟩
    unfold handleMouseUp
    rw [if_pos ⟨f1, hdd, rfl⟩]
    unfold relCoords getRelativeCoordsOpt
    rw [hr]
    constructor
    · simp [hoff]
    · simp [f5, hoff]
  · intro m hm hexc
    have hne : moves ≠ [] := List.ne_nil_of_mem hm
    obtain ⟨hdd, hoff⟩ := f7 hne (Or.inr ⟨m, hm, hexc⟩)
    unfold handleMouseUp
    rw [if_neg (fun h => absurd (hdd.symm.trans h.2.1) (by simp))]
    constructor
    · simp [f5]
    · rw [List.getLast_cons hne]
      simp only [hoff]
      rw [Pt.mk.injEq]
      constructor <;> ring

/-- Witness for `c6_panning_threshold`: a click gesture with a 1px move
(below threshold) fires one marker-add and keeps the offset, and a
gesture with a 19px horizontal move (above threshold) pans by the pointer
delta and fires no marker-add. -/
theorem c6_panning_threshold_witness :
    ((runGesture ctxSmall canvasState0 ⟨1, 1⟩ [⟨2, 2⟩]).canvasOffset
        = canvasState0.canvasOffset ∧
      (runGesture ctxSmall canvasState0 ⟨1, 1⟩ [⟨2, 2⟩]).markerAdds
        = canvasState0.markerAdds ++
          [getRelativeCoords ⟨0, 0⟩ canvasState0.canvasOffset ctxSmall.zoom
            ctxSmall.geom (((⟨1, 1⟩ : Pt) :: [⟨2, 2⟩]).getLast (by simp))]) ∧
    ((runGesture ctxSmall canvasState0 ⟨1, 1⟩ [⟨20, 2⟩]).markerAdds
        = canvasState0.markerAdds ∧
      (runGesture ctxSmall canvasState0 ⟨1, 1⟩ [⟨20, 2⟩]).canvasOffset
        = ⟨canvasState0.canvasOffset.x
              + ((((⟨1, 1⟩ : Pt) :: [⟨20, 2⟩]).getLast (by simp)).x
                 - (⟨1, 1⟩ : Pt).x),
           canvasState0.canvasOffset.y
              + ((((⟨1, 1⟩ : Pt) :: [⟨20, 2⟩]).getLast (by simp)).y
                 - (⟨1, 1⟩ : Pt).y)⟩) :=
  ⟨(c6_panning_threshold ctxSmall ⟨0, 0⟩ canvasState0 ⟨1, 1⟩ [⟨2, 2⟩]
      rfl rfl rfl rfl rfl rfl).1 (by
        intro m hm
        simp only [List.mem_singleton] at hm
        subst hm
        norm_num [exceedsThreshold]),
   (c6_panning_threshold ctxSmall ⟨0, 0⟩ canvasState0 ⟨1, 1⟩ [⟨20, 2⟩]
      rfl rfl rfl rfl rfl rfl).2 ⟨20, 2⟩ (by simp)
      (by norm_num [exceedsThreshold])⟩

end ImageConstructor
